import Mathlib

/-!
Verification of the resource-library single-page application (src/src/App.js).

The component's state and handlers are shallowly embedded: React `useState`
fields become fields of `AppState`, each handler becomes a state-transition
function, and the filtering `useEffect` (lines 43-51) becomes
`applyFilterEffect`.  JavaScript `null` is modelled by `Option.none`,
JavaScript truthiness of nullable strings by `falsyStr`, `String.includes`
by `jsIncludes` and `toLowerCase` by a per-character case map.
-/

namespace PMU

/-- A resource record as served by `/resources.json`
(`{ id, title, topic, type, conference, url }`). -/
structure Resource where
  id : Nat
  title : String
  topic : String
  type : String
  conference : String
  url : String
deriving DecidableEq, Repr

/-- The filter-selection state `{ topic: null, type: null, conference: null }`
(App.js line 18).  `none` models JavaScript `null`. -/
structure Filters where
  topic : Option String
  type : Option String
  conference : Option String
deriving DecidableEq, Repr

/-- The three filter dimensions used by the component. -/
inductive Dim
  | topic
  | type
  | conference
deriving DecidableEq, Repr

/-- Attribute lookup `item[key]` for the three filter dimensions. -/
def Resource.attr (r : Resource) : Dim → String
  | Dim.topic => r.topic
  | Dim.type => r.type
  | Dim.conference => r.conference

/-- Selection lookup `filters[key]`. -/
def Filters.sel (f : Filters) : Dim → Option String
  | Dim.topic => f.topic
  | Dim.type => f.type
  | Dim.conference => f.conference

/-- `{ ...prev, [filterType]: value }`: replace one dimension of the
selection record, keeping the others. -/
def setDim (f : Filters) : Dim → Option String → Filters
  | Dim.topic, v => { f with topic := v }
  | Dim.type, v => { f with type := v }
  | Dim.conference, v => { f with conference := v }

/-- JavaScript falsiness of a nullable string: `!x` is `true` exactly for
`null` and the empty string `""`. -/
def falsyStr : Option String → Bool
  | none => true
  | some s => s == ""

/-- JavaScript `toLowerCase`, modelled as a per-character case map over the
string's characters. -/
def jsToLower (s : String) : String :=
  String.mk (s.data.map Char.toLower)

/-- Contiguous-sublist test on character lists, the semantics of
JavaScript `String.prototype.includes`. -/
def listIncludes : List Char → List Char → Bool
  | sub, [] => sub.isEmpty
  | sub, c :: rest => sub.isPrefixOf (c :: rest) || listIncludes sub rest

/-- `s.includes(sub)` from App.js line 45. -/
def jsIncludes (s sub : String) : Bool :=
  listIncludes sub.toList s.toList

/-- One conjunct `(!filters.key || resource.key === filters.key)` of the
filter predicate (App.js lines 46-48). -/
def dimPasses (sel : Option String) (attr : String) : Bool :=
  falsyStr sel || some attr == sel

/-- The filter predicate of the `useEffect` at App.js lines 44-49. -/
def matchesResource (searchTerm : String) (filters : Filters) (r : Resource) : Bool :=
  jsIncludes (jsToLower r.title) (jsToLower searchTerm) &&
  dimPasses filters.topic r.topic &&
  dimPasses filters.type r.type &&
  dimPasses filters.conference r.conference

/-- The filter engine: `resources.filter(resource => ...)` (App.js lines 43-51). -/
def filterResources (resources : List Resource) (searchTerm : String)
    (filters : Filters) : List Resource :=
  resources.filter (matchesResource searchTerm filters)

/-- First-occurrence deduplication with an accumulator of already-seen
values: the semantics of `[...new Set(xs)]`. -/
def dedupFirst (seen : List String) : List String → List String
  | [] => []
  | a :: rest =>
    if seen.contains a then dedupFirst seen rest
    else a :: dedupFirst (a :: seen) rest

/-- `getUniqueValues(key)` (App.js line 112): distinct attribute values over
the full `resources` collection, in first-occurrence order. -/
def getUniqueValues (resources : List Resource) (key : Dim) : List String :=
  dedupFirst [] (resources.map (fun item => item.attr key))

/-- The component state held in `useState` hooks (App.js lines 15-20, 66). -/
structure AppState where
  resources : List Resource
  filteredResources : List Resource
  searchTerm : String
  filters : Filters
  isLoading : Bool
  error : Option String
  selectedResource : Option Resource
deriving Repr

/-- The initial hook values: empty collections, empty search, all-null
filters, loading, no error, no selection. -/
def initialState : AppState :=
  { resources := []
    filteredResources := []
    searchTerm := ""
    filters := ⟨none, none, none⟩
    isLoading := true
    error := none
    selectedResource := none }

/-- The user-facing message set on load failure (App.js line 35). -/
def loadErrorMessage : String :=
  "Failed to load resources. Please try again later."

/-- `response.ok`: status in the 2xx range. -/
def respOk (status : Nat) : Bool :=
  200 ≤ status && status < 300

/-- Outcome of the single startup `fetch('/resources.json')`: the promise
rejects (transport error) or a response arrives whose body either parses
to a resource list or fails to parse. -/
inductive FetchOutcome
  | transportError
  | response (status : Nat) (body : Except Unit (List Resource))

/-- The `fetchResources` transition (App.js lines 22-41): on a 2xx response
with a parsed body, populate both collections and finish loading; any
transport error, non-ok status, or parse failure reaches the `catch` block,
which records the error message and finishes loading.  The model applies
this transition exactly once (the effect has an empty dependency array):
there is no retry. -/
def fetchResources (st : AppState) (outcome : FetchOutcome) : AppState :=
  match outcome with
  | FetchOutcome.transportError =>
    { st with error := some loadErrorMessage, isLoading := false }
  | FetchOutcome.response status body =>
    if respOk status then
      match body with
      | Except.ok data =>
        { st with resources := data, filteredResources := data, isLoading := false }
      | Except.error _ =>
        { st with error := some loadErrorMessage, isLoading := false }
    else
      { st with error := some loadErrorMessage, isLoading := false }

/-- Whether an outcome is a load failure as the spec describes it:
a transport error or a non-2xx response. -/
def fetchFailed : FetchOutcome → Bool
  | FetchOutcome.transportError => true
  | FetchOutcome.response status _ => !(respOk status)

/-- `handleSearch` (App.js lines 53-55): store the new search term. -/
def handleSearch (st : AppState) (value : String) : AppState :=
  { st with searchTerm := value }

/-- `handleFilterChange` (App.js lines 57-59): update one dimension of the
selection record. -/
def handleFilterChange (st : AppState) (d : Dim) (value : Option String) : AppState :=
  { st with filters := setDim st.filters d value }

/-- `resetFilters` (App.js lines 61-64): all selections to null and the
search term to the empty string. -/
def resetFilters (st : AppState) : AppState :=
  { st with filters := ⟨none, none, none⟩, searchTerm := "" }

/-- The filtering `useEffect` (App.js lines 43-51), which recomputes
`filteredResources` after any change to the search term, filters or
resources. -/
def applyFilterEffect (st : AppState) : AppState :=
  { st with filteredResources :=
      filterResources st.resources st.searchTerm st.filters }

/-- `openResource` (App.js lines 68-70): store the clicked resource as the
selected one. -/
def openResource (st : AppState) (r : Resource) : AppState :=
  { st with selectedResource := some r }

/-- The dropdown options read by the view (App.js line 153): they are
computed from the full `resources` state, never the filtered view. -/
def availableValues (st : AppState) (key : Dim) : List String :=
  getUniqueValues st.resources key

/-- An embedded iframe as produced by `renderResourceContent`. -/
structure IFrame where
  src : String
  width : String
  height : String
  allow : Option String
  allowFullScreen : Bool
  title : String
deriving DecidableEq, Repr

/-- The rendered detail content: nothing (no selection), an iframe, or a
fallback text paragraph. -/
inductive Content
  | empty
  | frame (f : IFrame)
  | message (text : String)
deriving DecidableEq, Repr

/-- The `allow` attribute of the video iframe (App.js line 93). -/
def videoAllow : String :=
  "accelerometer; autoplay; clipboard-write; encrypted-media; gyroscope; picture-in-picture"

/-- `renderResourceContent` (App.js lines 72-110): dispatch on the selected
resource's `type`. -/
def renderResourceContent (selectedResource : Option Resource) : Content :=
  match selectedResource with
  | none => Content.empty
  | some r =>
    match r.type with
    | "book" => Content.frame ⟨r.url, "100%", "500px", none, false, r.title⟩
    | "article" => Content.frame ⟨r.url, "100%", "500px", none, false, r.title⟩
    | "video" => Content.frame ⟨r.url, "560", "315", some videoAllow, true, r.title⟩
    | "activity" => Content.frame ⟨r.url, "100%", "500px", none, false, r.title⟩
    | _ => Content.message "Unable to display this resource type."

/-- The top-level render decision (App.js lines 120-123): the loading view,
then the error view when `error` is truthy, else the main grid over the
filtered resources. -/
inductive View
  | loading
  | errorView (msg : String)
  | mainView (cards : List Resource)
deriving DecidableEq, Repr

/-- `if (isLoading) ...; if (error) ...; return <main>` (App.js 120-123). -/
def render (st : AppState) : View :=
  if st.isLoading then View.loading
  else if falsyStr st.error then View.mainView st.filteredResources
  else View.errorView (st.error.getD "")

/-- A raw JSON record in which any attribute may be absent
(JavaScript `undefined`), for claims about malformed records. -/
structure RawResource where
  id : Option Nat
  title : Option String
  topic : Option String
  type : Option String
  conference : Option String
  url : Option String
deriving DecidableEq, Repr

/-- One dimension conjunct of the filter predicate on a raw record:
`undefined === filters.key` is `false`, never an error. -/
def rawDimPasses (sel : Option String) (attr : Option String) : Bool :=
  falsyStr sel || (attr.isSome && attr == sel)

/-- The error thrown by `resource.title.toLowerCase()` when `title` is
absent. -/
def jsUndefinedTitleError : String :=
  "TypeError: Cannot read properties of undefined (reading toLowerCase)"

/-- The filter predicate of App.js lines 44-49 under JavaScript semantics
on a raw record: reading `.toLowerCase` of an absent `title` throws. -/
def rawMatches (searchTerm : String) (filters : Filters) (r : RawResource) :
    Except String Bool :=
  match r.title with
  | none => Except.error jsUndefinedTitleError
  | some t =>
    Except.ok (jsIncludes (jsToLower t) (jsToLower searchTerm) &&
      rawDimPasses filters.topic r.topic &&
      rawDimPasses filters.type r.type &&
      rawDimPasses filters.conference r.conference)

/-- `resources.filter(...)` on raw records: an exception thrown by the
predicate aborts the whole filter evaluation. -/
def rawFilter (resources : List RawResource) (searchTerm : String)
    (filters : Filters) : Except String (List RawResource) :=
  match resources with
  | [] => Except.ok []
  | r :: rest =>
    match rawMatches searchTerm filters r with
    | Except.error e => Except.error e
    | Except.ok b =>
      match rawFilter rest searchTerm filters with
      | Except.error e => Except.error e
      | Except.ok tail => Except.ok (if b then r :: tail else tail)

/-- Whether an `Except` computation completed without throwing. -/
def exceptOk {ε α : Type} : Except ε α → Bool
  | Except.ok _ => true
  | Except.error _ => false

/-! Helper lemmas -/

theorem listIncludes_nil (l : List Char) : listIncludes [] l = true := by
  cases l with
  | nil => rfl
  | cons c rest => simp [listIncludes]

theorem jsIncludes_empty (s : String) : jsIncludes s "" = true := by
  simpa [jsIncludes] using listIncludes_nil s.toList

theorem dimPasses_none (a : String) : dimPasses none a = true := rfl

theorem dimPasses_true_iff (sel : Option String) (a : String) :
    dimPasses sel a = true ↔ (falsyStr sel = false → some a = sel) := by
  by_cases h : falsyStr sel = true
  · simp [dimPasses, h]
  · simp only [Bool.not_eq_true] at h
    simp [dimPasses, h, beq_iff_eq]

theorem matchesResource_true_iff (s : String) (f : Filters) (r : Resource) :
    matchesResource s f r = true ↔
      (jsIncludes (jsToLower r.title) (jsToLower s) = true ∧
       ∀ d : Dim, falsyStr (f.sel d) = false → some (r.attr d) = f.sel d) := by
  simp only [matchesResource, Bool.and_eq_true, dimPasses_true_iff]
  constructor
  · rintro ⟨⟨⟨ht, h1⟩, h2⟩, h3⟩
    refine ⟨ht, fun d => ?_⟩
    cases d <;> simpa [Filters.sel, Resource.attr]
  · rintro ⟨ht, hd⟩
    exact ⟨⟨⟨ht, hd Dim.topic⟩, hd Dim.type⟩, hd Dim.conference⟩

theorem jsToLower_empty : jsToLower "" = "" := by decide

theorem matchesResource_empty_null (r : Resource) :
    matchesResource "" ⟨none, none, none⟩ r = true := by
  simp only [matchesResource, jsToLower_empty, jsIncludes_empty, dimPasses_none,
    Bool.and_self]

theorem mem_dedupFirst (a : String) :
    ∀ (l seen : List String), a ∈ dedupFirst seen l ↔ (a ∈ l ∧ a ∉ seen)
  | [], seen => by simp [dedupFirst]
  | b :: rest, seen => by
    rw [dedupFirst]
    by_cases hb : b ∈ seen
    · rw [if_pos (List.elem_iff.mpr hb), mem_dedupFirst a rest seen]
      constructor
      · rintro ⟨h1, h2⟩
        exact ⟨List.mem_cons_of_mem b h1, h2⟩
      · rintro ⟨h1, h2⟩
        rcases List.mem_cons.mp h1 with h1 | h1
        · exact absurd (h1 ▸ hb) h2
        · exact ⟨h1, h2⟩
    · rw [if_neg (fun hc => hb (List.elem_iff.mp hc))]
      simp only [List.mem_cons, mem_dedupFirst a rest (b :: seen)]
      constructor
      · rintro (h1 | ⟨h1, h2⟩)
        · exact ⟨Or.inl h1, h1 ▸ hb⟩
        · rw [not_or] at h2
          exact ⟨Or.inr h1, h2.2⟩
      · rintro ⟨h1 | h1, h2⟩
        · exact Or.inl h1
        · by_cases hab : a = b
          · exact Or.inl hab
          · refine Or.inr ⟨h1, ?_⟩
            rw [not_or]
            exact ⟨hab, h2⟩

theorem nodup_dedupFirst : ∀ (l seen : List String), (dedupFirst seen l).Nodup
  | [], _ => by simp [dedupFirst]
  | b :: rest, seen => by
    rw [dedupFirst]
    by_cases hb : b ∈ seen
    · rw [if_pos (List.elem_iff.mpr hb)]
      exact nodup_dedupFirst rest seen
    · rw [if_neg (fun hc => hb (List.elem_iff.mp hc)), List.nodup_cons]
      refine ⟨fun hmem => ?_, nodup_dedupFirst rest (b :: seen)⟩
      exact ((mem_dedupFirst b rest (b :: seen)).mp hmem).2 (List.mem_cons_self b seen)

/-! Claim theorems -/

/-- The claim's matching predicate, following the spec's words: the title
contains the search term case-insensitively, and every dimension whose
selection is non-null matches exactly.  Used only to compare the claim
against the engine, which instead tests truthiness of the selection. -/
def specMatches (searchTerm : String) (filters : Filters) (r : Resource) : Bool :=
  jsIncludes (jsToLower r.title) (jsToLower searchTerm) &&
  (filters.topic.isNone || some r.topic == filters.topic) &&
  (filters.type.isNone || some r.type == filters.type) &&
  (filters.conference.isNone || some r.conference == filters.conference)

/-- A topic selection equal to the empty string: non-null, but falsy. -/
def emptyTopicSel : Filters := ⟨some "", none, none⟩

/-- A concrete resource whose topic is "CS". -/
def bookCS : Resource := ⟨1, "a", "CS", "book", "X", "u"⟩

/-- C1 counterexample: with the topic selection equal to the empty string
(non-null), the engine keeps a resource whose topic is "CS", while the
claim demands a filtered set containing only resources whose topic equals
the selection exactly. -/
theorem filterResources_ne_spec_at_emptySel :
    filterResources [bookCS] "" emptyTopicSel = [bookCS] ∧
    List.filter (specMatches "" emptyTopicSel) [bookCS] = [] ∧
    filterResources [bookCS] "" emptyTopicSel ≠
      List.filter (specMatches "" emptyTopicSel) [bookCS] := by
  decide

/-- C1 (amended): the engine returns exactly the resources whose title
contains the search term case-insensitively and whose attributes equal the
selection on every dimension whose selection is truthy (non-null and
non-empty); an empty search term passes every resource. -/
theorem filterResources_characterization (resources : List Resource)
    (s : String) (f : Filters) :
    (∀ r : Resource, r ∈ filterResources resources s f ↔
        (r ∈ resources ∧
         jsIncludes (jsToLower r.title) (jsToLower s) = true ∧
         ∀ d : Dim, falsyStr (f.sel d) = false → some (r.attr d) = f.sel d)) ∧
    (∀ r : Resource, jsIncludes (jsToLower r.title) (jsToLower "") = true) := by
  constructor
  · intro r
    rw [filterResources, List.mem_filter, matchesResource_true_iff]
  · intro r
    rw [jsToLower_empty]
    exact jsIncludes_empty _

/-- The first example resource of the spec's test vignette. -/
def specR1 : Resource := ⟨1, "Intro to Graphs", "CS", "book", "X", "u1"⟩

/-- The second example resource of the spec's test vignette. -/
def specR2 : Resource := ⟨2, "Advanced ML", "AI", "video", "Y", "u2"⟩

/-- C1 witness: on the spec's example data, searching "a" with topic "AI"
selected keeps the "Advanced ML" resource. -/
theorem filterResources_characterization_witness :
    specR2 ∈ filterResources [specR1, specR2] "a" ⟨some "AI", none, none⟩ := by
  refine ((filterResources_characterization [specR1, specR2] "a"
    ⟨some "AI", none, none⟩).1 specR2).mpr ⟨?_, ?_, ?_⟩
  · decide
  · decide
  · intro d hd
    revert hd
    cases d <;> decide

/-- C2: the dropdown option lists are the distinct attribute values of the
full collection (membership plus no duplicates), and they are invariant
under search-term changes, other filter changes, and filtered-view
recomputation. -/
theorem availableValues_spec (st : AppState) (key : Dim) :
    (∀ v, v ∈ availableValues st key ↔
      v ∈ st.resources.map (fun r => r.attr key)) ∧
    (availableValues st key).Nodup ∧
    (∀ s, availableValues (handleSearch st s) key = availableValues st key) ∧
    (∀ d v, availableValues (handleFilterChange st d v) key =
      availableValues st key) ∧
    availableValues (applyFilterEffect st) key = availableValues st key := by
  refine ⟨fun v => ?_, nodup_dedupFirst _ _, fun s => rfl, fun d v => rfl, rfl⟩
  rw [availableValues, getUniqueValues, mem_dedupFirst]
  simp

/-- The error message string is truthy in the error-view test. -/
theorem loadErrorMessage_truthy : falsyStr (some loadErrorMessage) = false := by
  decide

/-- C3: any load failure (transport error or non-2xx response) from the
initial state yields the error message, loading complete, empty resource
collections, and the error view; the model applies the fetch transition
once, so no retry exists. -/
theorem fetchFailure_state (outcome : FetchOutcome)
    (h : fetchFailed outcome = true) :
    (fetchResources initialState outcome).error = some loadErrorMessage ∧
    (fetchResources initialState outcome).isLoading = false ∧
    (fetchResources initialState outcome).resources = [] ∧
    (fetchResources initialState outcome).filteredResources = [] ∧
    render (fetchResources initialState outcome) =
      View.errorView loadErrorMessage := by
  cases outcome with
  | transportError =>
    refine ⟨rfl, rfl, rfl, rfl, ?_⟩
    simp [fetchResources, render, loadErrorMessage_truthy, initialState]
  | response status body =>
    have hst : respOk status = false := by
      simpa [fetchFailed] using h
    refine ⟨?_, ?_, ?_, ?_, ?_⟩ <;>
      simp [fetchResources, hst, render, loadErrorMessage_truthy, initialState]

/-- C3 witness: an HTTP 500 response is a failure and produces the error
state and error view. -/
theorem fetchFailure_state_witness :
    fetchFailed (FetchOutcome.response 500 (Except.ok [])) = true ∧
    ((fetchResources initialState
        (FetchOutcome.response 500 (Except.ok []))).error =
          some loadErrorMessage ∧
     (fetchResources initialState
        (FetchOutcome.response 500 (Except.ok []))).isLoading = false ∧
     (fetchResources initialState
        (FetchOutcome.response 500 (Except.ok []))).resources = [] ∧
     (fetchResources initialState
        (FetchOutcome.response 500 (Except.ok []))).filteredResources = [] ∧
     render (fetchResources initialState
        (FetchOutcome.response 500 (Except.ok []))) =
          View.errorView loadErrorMessage) :=
  ⟨by decide,
   fetchFailure_state (FetchOutcome.response 500 (Except.ok [])) (by decide)⟩

/-- C6: the detail renderer dispatches on the `type` attribute: book,
article and activity embed at full width and fixed height; video embeds at
fixed width and height with the permissive `allow` list and full-screen
enabled; any other type gives the fallback message. -/
theorem renderResourceContent_dispatch (r : Resource) :
    ((r.type = "book" ∨ r.type = "article" ∨ r.type = "activity") →
      renderResourceContent (some r) =
        Content.frame ⟨r.url, "100%", "500px", none, false, r.title⟩) ∧
    (r.type = "video" →
      renderResourceContent (some r) =
        Content.frame ⟨r.url, "560", "315", some videoAllow, true, r.title⟩) ∧
    ((r.type ≠ "book" ∧ r.type ≠ "article" ∧ r.type ≠ "video" ∧
        r.type ≠ "activity") →
      renderResourceContent (some r) =
        Content.message "Unable to display this resource type.") := by
  obtain ⟨i, title, topic, ty, conf, url⟩ := r
  refine ⟨?_, ?_, ?_⟩
  · rintro (h | h | h) <;> (subst h; rfl)
  · intro h
    subst h
    rfl
  · rintro ⟨h1, h2, h3, h4⟩
    simp only [renderResourceContent]

/-- C6 witness: the dispatch theorem applied to a book, a video and an
unknown type. -/
theorem renderResourceContent_dispatch_witness :
    renderResourceContent (some ⟨1, "t", "CS", "book", "X", "u"⟩) =
      Content.frame ⟨"u", "100%", "500px", none, false, "t"⟩ ∧
    renderResourceContent (some ⟨2, "t", "CS", "video", "X", "u"⟩) =
      Content.frame ⟨"u", "560", "315", some videoAllow, true, "t"⟩ ∧
    renderResourceContent (some ⟨3, "t", "CS", "podcast", "X", "u"⟩) =
      Content.message "Unable to display this resource type." :=
  ⟨(renderResourceContent_dispatch ⟨1, "t", "CS", "book", "X", "u"⟩).1
      (Or.inl rfl),
   (renderResourceContent_dispatch ⟨2, "t", "CS", "video", "X", "u"⟩).2.1 rfl,
   (renderResourceContent_dispatch ⟨3, "t", "CS", "podcast", "X", "u"⟩).2.2
      ⟨by decide, by decide, by decide, by decide⟩⟩

/-- A record whose `title` attribute is absent. -/
def rawMissingTitle : RawResource :=
  ⟨some 1, none, some "CS", some "book", some "X", some "u"⟩

/-- C7 counterexample: on a collection containing a record with a missing
title, the filter predicate throws a TypeError and the filter evaluation
does not complete. -/
theorem rawFilter_missingTitle_throws :
    rawFilter [rawMissingTitle] "" ⟨none, none, none⟩ =
      Except.error jsUndefinedTitleError ∧
    exceptOk (rawFilter [rawMissingTitle] "" ⟨none, none, none⟩) = false :=
  ⟨rfl, rfl⟩

/-- C7 (amended): when every record has a title, the filter evaluation
completes even if other attributes (topic, type, conference, id, url) are
missing; such records merely fail truthy dimension constraints and surface
as display anomalies. -/
theorem rawFilter_completes_of_titles_present (resources : List RawResource)
    (s : String) (f : Filters) (h : ∀ r ∈ resources, r.title ≠ none) :
    exceptOk (rawFilter resources s f) = true := by
  induction resources with
  | nil => rfl
  | cons r rest ih =>
    have ht := h r (List.mem_cons_self r rest)
    have ihh := ih (fun x hx => h x (List.mem_cons_of_mem r hx))
    match hts : r.title with
    | none => exact absurd hts ht
    | some t =>
      simp only [rawFilter, rawMatches, hts]
      cases hrec : rawFilter rest s f with
      | error e =>
        rw [hrec] at ihh
        simp [exceptOk] at ihh
      | ok tail =>
        simp [exceptOk]

/-- A record with a title but no other attributes. -/
def rawNoTopic : RawResource := ⟨some 2, some "T", none, none, none, none⟩

/-- C7 witness: the completion theorem applied to a single titled record
with every other attribute missing. -/
theorem rawFilter_completes_witness :
    (∀ r ∈ [rawNoTopic], r.title ≠ none) ∧
    exceptOk (rawFilter [rawNoTopic] "" ⟨none, none, none⟩) = true :=
  ⟨by decide,
   rawFilter_completes_of_titles_present [rawNoTopic] "" ⟨none, none, none⟩
     (by decide)⟩

/-- C4: invoking reset from any state sets all three selections to null and
the search term to the empty string, and after the filtering effect the
filtered set is the full collection. -/
theorem resetFilters_clears_and_restores (st : AppState) :
    (resetFilters st).filters = ⟨none, none, none⟩ ∧
    (resetFilters st).searchTerm = "" ∧
    (applyFilterEffect (resetFilters st)).filteredResources = st.resources := by
  refine ⟨rfl, rfl, ?_⟩
  simp only [applyFilterEffect, resetFilters, filterResources]
  exact List.filter_eq_self.mpr (fun r _ => matchesResource_empty_null r)

/-- C5: selection is a single optional slot: selecting `a` makes `a` the sole
selection, and selecting `a` then `b` leaves `b` as the sole selection. -/
theorem openResource_single_selection (st : AppState) (a b : Resource) :
    (openResource st a).selectedResource = some a ∧
    (openResource (openResource st a) b).selectedResource = some b :=
  ⟨rfl, rfl⟩

/-- C8: the filter engine is a pure function of collection, search term and
selections: equal inputs give equal outputs, and the output is a sublist of
the input collection (elements are neither modified nor reordered). -/
theorem filterResources_pure (c₁ c₂ : List Resource) (s₁ s₂ : String)
    (f₁ f₂ : Filters) (hc : c₁ = c₂) (hs : s₁ = s₂) (hf : f₁ = f₂) :
    filterResources c₁ s₁ f₁ = filterResources c₂ s₂ f₂ ∧
    (filterResources c₁ s₁ f₁).Sublist c₁ := by
  subst hc hs hf
  exact ⟨rfl, List.filter_sublist c₁⟩

/-- C8 witness: the purity theorem applied at a concrete input. -/
theorem filterResources_pure_witness :
    filterResources [] "" ⟨none, none, none⟩ = filterResources [] "" ⟨none, none, none⟩ ∧
    (filterResources [] "" ⟨none, none, none⟩).Sublist [] :=
  filterResources_pure [] [] "" "" ⟨none, none, none⟩ ⟨none, none, none⟩ rfl rfl rfl

/-- C10: the filter-change handler updates exactly the named dimension:
the search term and the other two dimensions' selections are unchanged. -/
theorem handleFilterChange_frame (st : AppState) (d : Dim) (v : Option String) :
    (handleFilterChange st d v).searchTerm = st.searchTerm ∧
    (handleFilterChange st d v).filters.sel d = v ∧
    ∀ d2 : Dim, d2 ≠ d →
      (handleFilterChange st d v).filters.sel d2 = st.filters.sel d2 := by
  refine ⟨rfl, ?_, ?_⟩
  · cases d <;> rfl
  · intro d2 hne
    cases d <;> cases d2 <;> simp_all [handleFilterChange, setDim, Filters.sel]

/-- C10 witness: changing the topic selection leaves the type selection and
the search term as they were. -/
theorem handleFilterChange_frame_witness :
    (handleFilterChange initialState Dim.topic (some "AI")).searchTerm =
      initialState.searchTerm ∧
    (handleFilterChange initialState Dim.topic (some "AI")).filters.sel Dim.type =
      initialState.filters.sel Dim.type :=
  ⟨(handleFilterChange_frame initialState Dim.topic (some "AI")).1,
   (handleFilterChange_frame initialState Dim.topic (some "AI")).2.2 Dim.type
     (by decide)⟩

/-- C9: an empty-string selection is falsy, so its dimension constrains
nothing: every resource passes that dimension, and the filter predicate
coincides with the one where that selection is null. -/
theorem emptyString_selection_unconstrained (s : String) (f : Filters)
    (r : Resource) (d : Dim) (h : f.sel d = some "") :
    dimPasses (f.sel d) (r.attr d) = true ∧
    matchesResource s f r = matchesResource s (setDim f d none) r := by
  constructor
  · rw [h]
    rfl
  · cases d <;>
      simp_all [matchesResource, setDim, Filters.sel, dimPasses, falsyStr]

/-- C9 witness: with the topic selection set to the empty string, a resource
whose topic is "CS" passes the topic dimension. -/
theorem emptyString_selection_unconstrained_witness :
    dimPasses (Filters.sel ⟨some "", none, none⟩ Dim.topic)
      (Resource.attr ⟨1, "a", "CS", "book", "X", "u"⟩ Dim.topic) = true ∧
    matchesResource "" ⟨some "", none, none⟩ ⟨1, "a", "CS", "book", "X", "u"⟩ =
      matchesResource "" (setDim ⟨some "", none, none⟩ Dim.topic none)
        ⟨1, "a", "CS", "book", "X", "u"⟩ :=
  emptyString_selection_unconstrained "" ⟨some "", none, none⟩
    ⟨1, "a", "CS", "book", "X", "u"⟩ Dim.topic rfl

end PMU
